import Mathlib

/-!
Shallow embedding of `src/drip_telegram_bot.py` (DRIP Telegram bot).

The bot fetches a DexScreener JSON response for a token address and renders
two kinds of reports: a 24-hour-volume ranking (`handle_volume`) and a
volume-to-liquidity ratio ranking (`handle_ratio`).  Python floats are
modelled as rationals; a JSON numeric field is modelled by `JVal`, which
distinguishes the three behaviours of `float(x or 0)`: a falsy or absent
value (`or 0` turns it into `0`), a truthy value that parses to a number,
and a truthy value on which `float` raises an exception.

One parse site in `handle_volume` is NOT guarded: the sort key of lines
107–111.  The embedding therefore comes in two levels: pure functions
(`handleVolume`, `pairsSorted`, ...) describing the non-raising path, and
exception-explicit functions (`handleVolumeE`, `sortKeysE`,
`handleRatioE`, ...) in the `Except` monad that place a fallible parse at
every `float` call and a catch exactly where the source has `try`/
`except`.  `handleVolume_agrees` proves the pure handler is exactly the
`Except.ok` projection of the faithful one; `handleRatioE_eq` shows the
ratio handler never raises at all.
-/

/-- Models a JSON field value fed to `float(x or 0)` in the Python source:
`missing` covers an absent key, `None`, or any falsy value (replaced by `0`
before parsing); `num q` is a truthy value parsing to `q`; `bad` is a truthy
value on which `float` raises. -/
inductive JVal where
  | missing : JVal
  | num : Rat → JVal
  | bad : JVal
deriving DecidableEq

/-- Models a single `float(x or 0)` call as a fallible computation: raising
becomes `Except.error`. -/
def floatE : JVal → Except String Rat
  | .missing => .ok 0
  | .num q => .ok q
  | .bad => .error "could not convert string to float"

/-- Models `try: v = float(x or 0) except: v = 0` (the caught form used when
the Python code zero-defaults a parse failure). -/
def floatOr0 (v : JVal) : Rat :=
  match floatE v with
  | .ok q => q
  | .error _ => 0

/-- One record of the upstream `pairs` array, restricted to the fields the
bot reads.  `none` in a string field covers an absent or falsy value. -/
structure Pair where
  baseSymbol : Option String
  quoteSymbol : Option String
  dexId : Option String
  liquidity : JVal
  volume : JVal
deriving DecidableEq

/-- The fetched DexScreener response: `data.get("pairs")`, where `none`
covers an absent or `null` `pairs` field. -/
structure DexResponse where
  pairs : Option (List Pair)
deriving DecidableEq

/-- Models Python `str.upper()` (character-wise uppercasing). -/
def pyUpper (s : String) : String := String.mk (s.data.map Char.toUpper)

/-- Models Python `str.lower()` (character-wise lowercasing). -/
def pyLower (s : String) : String := String.mk (s.data.map Char.toLower)

/-- Models Python `str.strip()` (drop whitespace from both ends). -/
def pyStrip (s : String) : String :=
  String.mk
    (((s.data.dropWhile Char.isWhitespace).reverse.dropWhile Char.isWhitespace).reverse)

/-- Models `(p.get("baseToken", {}).get("symbol") or "?").strip()`. -/
def baseOf (p : Pair) : String := pyStrip (p.baseSymbol.getD "?")

/-- Models `(p.get("quoteToken", {}).get("symbol") or "?").strip()`. -/
def quoteOf (p : Pair) : String := pyStrip (p.quoteSymbol.getD "?")

/-- Models `(p.get("dexId", "unknown") or "unknown").strip()`. -/
def dexOf (p : Pair) : String := pyStrip (p.dexId.getD "unknown")

/-- The parsed-with-catch liquidity value used by the filter in
`handle_volume` (lines 95–98). -/
def liqKey (p : Pair) : Rat := floatOr0 p.liquidity

/-- The zero-defaulted 24-hour volume value.  Caution: the sort-key parse
of `handle_volume` (line 109) is NOT wrapped in `try`/`except`, so on a
truthy unparseable `volume.h24` the real key computation raises instead of
yielding `0`; `volKey` coincides with the line-109 key only when that
parse succeeds (see `sortKeysE` / `handleVolumeE` for the raising path).
The caught loop re-parse of line 126–129 does equal `volKey` everywhere. -/
def volKey (p : Pair) : Rat := floatOr0 p.volume

/-- Models the Python set equality
`{base.upper(), quote.upper()} == {"SOL", "DRIP"}` (line 151–152): the
two-element set equals `{"SOL","DRIP"}` exactly when one symbol uppercases
to `"SOL"` and the other to `"DRIP"`. -/
def symbolsMatchSolDrip (base quote : String) : Bool :=
  (pyUpper base == "SOL" && pyUpper quote == "DRIP") ||
    (pyUpper base == "DRIP" && pyUpper quote == "SOL")

/-- The summary condition of line 152: symbol set `{SOL, DRIP}` and
`dex.strip().lower() == "raydium"`. -/
def summaryPred (p : Pair) : Bool :=
  symbolsMatchSolDrip (baseOf p) (quoteOf p) &&
    (pyLower (pyStrip (dexOf p)) == "raydium")

/-- The rank-icon if-chain of lines 134–141 (duplicated at 205–212). -/
def rankIcon (i : Nat) : String :=
  if i == 0 then "🥇"
  else if i == 1 then "🥈"
  else if i == 2 then "🥉"
  else "💰"

/-- One rendered block of the volume report (lines 143–147), kept as
structured data rather than formatted text. -/
structure VolEntry where
  icon : String
  base : String
  quote : String
  dex : String
  liquidityVal : Rat
  volumeVal : Rat
deriving DecidableEq

/-- One rendered block of the ratio report (lines 214–219). -/
structure RatEntry where
  icon : String
  base : String
  quote : String
  dex : String
  liquidityVal : Rat
  volumeVal : Rat
  ratioVal : Rat
deriving DecidableEq

/-- A reply sent via `update.message.reply_text`: either a plain text
message or a rendered report (header, entries, and for the volume report an
optional summary `(sol_ray_vol, total_other_vol)`). -/
inductive Reply where
  | text : String → Reply
  | volReport : String → List VolEntry → Option (Rat × Rat) → Reply
  | ratReport : String → List RatEntry → Reply
deriving DecidableEq

/-- Entries of a volume report, `[]` for any other reply. -/
def Reply.volEntries : Reply → List VolEntry
  | .volReport _ es _ => es
  | _ => []

/-- Summary of a volume report, `none` for any other reply. -/
def Reply.volSummary : Reply → Option (Rat × Rat)
  | .volReport _ _ s => s
  | _ => none

/-- Entries of a ratio report, `[]` for any other reply. -/
def Reply.ratEntries : Reply → List RatEntry
  | .ratReport _ es => es
  | _ => []

/-- The liquidity filter of `handle_volume` lines 93–100: keep pairs whose
caught parse of `liquidity.usd` is `> 0`. -/
def filteredPairs (pairs : List Pair) : List Pair :=
  pairs.filter (fun p => decide (0 < liqKey p))

/-- The ordering of the stable sort of line 107 on the success path:
`sorted(..., key=..., reverse=True)` places `a` before `b` exactly when
`volKey b ≤ volKey a`, keeping ties in input order.  This comparison is
only the source's behaviour when every key computation succeeded — the
key itself can raise (see `sortKeysE`). -/
def volLE (a b : Pair) : Prop := volKey b ≤ volKey a

instance : DecidableRel volLE := fun a b =>
  inferInstanceAs (Decidable (volKey b ≤ volKey a))

instance : IsTotal Pair volLE := ⟨fun a b => le_total (volKey b) (volKey a)⟩

instance : IsTrans Pair volLE := ⟨fun _ _ _ h h2 => le_trans h2 h⟩

/-- Models `pairs_sorted` of line 107 on the success path (every sort-key
parse succeeded): the filtered pairs, stably sorted in non-increasing
order of 24-hour volume.  Python's `sorted` is a stable sort, modelled
here by stable insertion sort.  The real sort first computes the key
`float(volume.h24 or 0)` for every element and raises on a truthy
unparseable value; that raising path is modelled by `sortKeysE` inside
`handleVolumeE`. -/
def pairsSorted (pairs : List Pair) : List Pair :=
  (filteredPairs pairs).insertionSort volLE

/-- The rendering loop of `handle_volume` lines 117–153.  `i` is the
`enumerate` index.  Returns the rendered entries, the running
`total_volume`, and the running `sol_ray_vol`.  The `continue` of line 125
(liquidity re-parse failure) skips the pair but still advances the index;
a volume parse failure (line 129) zero-defaults. -/
def volumeLoop (s : Bool) : List Pair → Nat → List VolEntry × Rat × Rat
  | [], _ => ([], 0, 0)
  | p :: rest, i =>
    match floatE p.liquidity with
    | .error _ => volumeLoop s rest (i + 1)
    | .ok liquidityVal =>
      let vol24hVal := floatOr0 p.volume
      let r := volumeLoop s rest (i + 1)
      (⟨rankIcon i, baseOf p, quoteOf p, dexOf p, liquidityVal, vol24hVal⟩ :: r.1,
       r.2.1 + vol24hVal,
       if s && summaryPred p then r.2.2 + vol24hVal else r.2.2)

/-- Models `handle_volume` after a successful fetch (lines 87–162) on its
non-raising path: empty-pairs check, liquidity filter, stable descending
sort by volume, rendering loop, optional summary
`(sol_ray_vol, total_volume - sol_ray_vol)`.  The source's sort-key parse
(line 109) is uncaught and raises on a truthy unparseable `volume.h24`;
the faithful exception-explicit embedding is `handleVolumeE`, and
`handleVolume_agrees` shows this pure function is exactly its
`Except.ok` projection. -/
def handleVolume (resp : DexResponse) (showSummary : Bool) : Reply :=
  let pairs := resp.pairs.getD []
  if pairs.isEmpty then
    Reply.text "No pairs found in DexScreener response."
  else
    let fps := filteredPairs pairs
    if fps.isEmpty then
      Reply.text "No valid LP pairs with liquidity found."
    else
      let sorted := pairsSorted pairs
      let r := volumeLoop showSummary sorted 0
      Reply.volReport ("Found " ++ toString sorted.length ++ " active LP pairs\n")
        r.1
        (if showSummary then some (r.2.2, r.2.1 - r.2.2) else none)

/-- The ratio-collection loop of `handle_ratio` lines 178–187: one `try`
covers both parses, and a failure of either `continue`s; a pair is kept
when both parsed values are `> 0`, contributing the tuple
`(ratio, liquidity_val, vol24h_val, p)`. -/
def ratioList : List Pair → List (Rat × Rat × Rat × Pair)
  | [] => []
  | p :: rest =>
    match floatE p.liquidity, floatE p.volume with
    | .ok liquidityVal, .ok vol24hVal =>
      if 0 < liquidityVal ∧ 0 < vol24hVal then
        (vol24hVal / liquidityVal, liquidityVal, vol24hVal, p) :: ratioList rest
      else
        ratioList rest
    | _, _ => ratioList rest

/-- The ordering of line 193: stable sort descending by the tuple's first
component (the ratio). -/
def ratioLE (a b : Rat × Rat × Rat × Pair) : Prop := b.1 ≤ a.1

instance : DecidableRel ratioLE := fun a b =>
  inferInstanceAs (Decidable (b.1 ≤ a.1))

instance : IsTotal (Rat × Rat × Rat × Pair) ratioLE := ⟨fun a b => le_total b.1 a.1⟩

instance : IsTrans (Rat × Rat × Rat × Pair) ratioLE := ⟨fun _ _ _ h h2 => le_trans h2 h⟩

/-- Models `ratios_sorted` of line 193. -/
def ratiosSorted (pairs : List Pair) : List (Rat × Rat × Rat × Pair) :=
  (ratioList pairs).insertionSort ratioLE

/-- The rendering loop of `handle_ratio` lines 196–220 (no skip branch):
`i` is the `enumerate` index. -/
def ratioRender : List (Rat × Rat × Rat × Pair) → Nat → List RatEntry
  | [], _ => []
  | t :: rest, i =>
    ⟨rankIcon i, baseOf t.2.2.2, quoteOf t.2.2.2, dexOf t.2.2.2,
      t.2.1, t.2.2.1, t.1⟩ :: ratioRender rest (i + 1)

/-- Models `handle_ratio` after a successful fetch (lines 173–223). -/
def handleRatio (resp : DexResponse) : Reply :=
  let pairs := resp.pairs.getD []
  if pairs.isEmpty then
    Reply.text "No pairs found in DexScreener response."
  else
    let ratios := ratioList pairs
    if ratios.isEmpty then
      Reply.text "No valid pairs with ratio data found."
    else
      let sorted := ratiosSorted pairs
      Reply.ratReport
        ("Found " ++ toString sorted.length ++
          " LP pairs ranked by ratio (24H Volume ÷ Liquidity)\n")
        (ratioRender sorted 0)

/-- A fetch outcome: `fetch_token_endpoint` either returns a parsed
response or raises (network error, non-200 status, bad JSON). -/
def FetchResult := Except String DexResponse

/-- Models `handle_volume` including its fetch `try`/`except` of lines 80–85. -/
def handleVolumeFetched (r : Except String DexResponse) (showSummary : Bool) : Reply :=
  match r with
  | .error e => Reply.text ("Error fetching data: " ++ e)
  | .ok data => handleVolume data showSummary

/-- Models `handle_ratio` including its fetch `try`/`except` of lines 166–171. -/
def handleRatioFetched (r : Except String DexResponse) : Reply :=
  match r with
  | .error e => Reply.text ("Error fetching data: " ++ e)
  | .ok data => handleRatio data

/-- The `/volume_other` wrapper (lines 236–241): with no argument it
replies with the usage string and never calls the fetcher; otherwise it
fetches `args[0]` and runs `handle_volume` with the summary disabled. -/
def volumeOtherCmd (fetch : String → Except String DexResponse)
    (args : List String) : Reply :=
  match args with
  | [] => Reply.text "Usage: /volume_other <TOKEN_CA>"
  | a :: _ => handleVolumeFetched (fetch a) false

/-- The `/ratio_other` wrapper (lines 244–249). -/
def ratioOtherCmd (fetch : String → Except String DexResponse)
    (args : List String) : Reply :=
  match args with
  | [] => Reply.text "Usage: /ratio_other <TOKEN_CA>"
  | a :: _ => handleRatioFetched (fetch a)

/-- Spec-side predicate (C3): the pair's `liquidity.usd` parses to a value
`> 0`; a missing, null, or unparseable field (treated as value `0`) is
excluded. -/
def specLiquidOkB (p : Pair) : Bool :=
  match p.liquidity with
  | JVal.num q => decide (0 < q)
  | _ => false

/-- Spec-side predicate (C2): liquidity and 24-hour volume are both
parseable and `> 0`. -/
def specRatioKeepB (p : Pair) : Bool :=
  match p.liquidity, p.volume with
  | JVal.num l, JVal.num v => decide (0 < l) && decide (0 < v)
  | _, _ => false

/-- Spec-side constructor for the tuple `handle_ratio` keeps for an
eligible pair. -/
def mkRatioTuple (p : Pair) : Rat × Rat × Rat × Pair :=
  (volKey p / liqKey p, liqKey p, volKey p, p)

/-- Spec-side constructor for the rendered volume block of the pair at
`enumerate` index `i`. -/
def mkVolEntry (i : Nat) (p : Pair) : VolEntry :=
  ⟨rankIcon i, baseOf p, quoteOf p, dexOf p, liqKey p, volKey p⟩

/-- Spec-side skip-free rendering (C9): one block per pair, indices dense
from `i`. -/
def specVolRender : List Pair → Nat → List VolEntry
  | [], _ => []
  | p :: rest, i => mkVolEntry i p :: specVolRender rest (i + 1)

/-- Spec-side summary predicate (C5) on a rendered entry: symbol set
case-insensitively `{SOL, DRIP}` and exchange id case-insensitively
`raydium`. -/
def entrySummaryPred (e : VolEntry) : Bool :=
  symbolsMatchSolDrip e.base e.quote && (pyLower (pyStrip e.dex) == "raydium")

/-- Exception-explicit liquidity filter (lines 93–100): the `float` call
may raise and the surrounding `try`/`except` zero-defaults it. -/
def filterPairsE : List Pair → Except String (List Pair)
  | [] => pure []
  | p :: rest => do
    let liquidityVal ← try floatE p.liquidity catch _ => pure 0
    let tail ← filterPairsE rest
    if 0 < liquidityVal then pure (p :: tail) else pure tail

/-- Exception-explicit rendering loop of `handle_volume` (lines 117–153):
the liquidity re-parse failure `continue`s (modelled by the `Option`
round-trip through the `try`), the volume parse failure zero-defaults. -/
def volumeLoopE (s : Bool) : List Pair → Nat → Except String (List VolEntry × Rat × Rat)
  | [], _ => pure ([], 0, 0)
  | p :: rest, i => do
    let liquidityRes ← try do
        let v ← floatE p.liquidity
        pure (some v)
      catch _ => pure none
    match liquidityRes with
    | none => volumeLoopE s rest (i + 1)
    | some liquidityVal => do
      let vol24hVal ← try floatE p.volume catch _ => pure 0
      let r ← volumeLoopE s rest (i + 1)
      pure (⟨rankIcon i, baseOf p, quoteOf p, dexOf p, liquidityVal, vol24hVal⟩ :: r.1,
        r.2.1 + vol24hVal,
        if s && summaryPred p then r.2.2 + vol24hVal else r.2.2)

/-- Exception-explicit ratio collection (lines 178–187): one `try` covers
both parses, a failure of either skips the pair. -/
def ratioListE : List Pair → Except String (List (Rat × Rat × Rat × Pair))
  | [] => pure []
  | p :: rest => do
    let vals ← try do
        let liquidityVal ← floatE p.liquidity
        let vol24hVal ← floatE p.volume
        pure (some (liquidityVal, vol24hVal))
      catch _ => pure none
    match vals with
    | none => ratioListE rest
    | some (liquidityVal, vol24hVal) => do
      let tail ← ratioListE rest
      if 0 < liquidityVal ∧ 0 < vol24hVal then
        pure ((vol24hVal / liquidityVal, liquidityVal, vol24hVal, p) :: tail)
      else
        pure tail

/-- Exception-explicit sort-key computation of lines 107–111: CPython's
`sorted(..., key=f)` first evaluates `f` on every element in list order,
and a raising key aborts the sort.  The key
`float(p.get("volume", {}).get("h24") or 0)` has NO surrounding
`try`/`except`, so the first truthy unparseable volume raises out of
`handle_volume`. -/
def sortKeysE : List Pair → Except String (List Rat)
  | [] => pure []
  | p :: rest => do
    let k ← floatE p.volume
    let ks ← sortKeysE rest
    pure (k :: ks)

/-- Exception-explicit `handle_volume` body after a successful fetch: an
uncaught parse exception surfaces as `Except.error`.  The sort first runs
the fallible key computation `sortKeysE` (the uncaught line-109 parse);
when it succeeds each key equals `volKey`, so the subsequent stable sort
by those keys is `insertionSort volLE`. -/
def handleVolumeE (resp : DexResponse) (showSummary : Bool) : Except String Reply := do
  let pairs := resp.pairs.getD []
  if pairs.isEmpty then
    pure (Reply.text "No pairs found in DexScreener response.")
  else do
    let fps ← filterPairsE pairs
    if fps.isEmpty then
      pure (Reply.text "No valid LP pairs with liquidity found.")
    else do
      let _keys ← sortKeysE fps
      let sorted := fps.insertionSort volLE
      let r ← volumeLoopE showSummary sorted 0
      pure (Reply.volReport ("Found " ++ toString sorted.length ++ " active LP pairs\n")
        r.1 (if showSummary then some (r.2.2, r.2.1 - r.2.2) else none))

/-- Exception-explicit `handle_ratio` body after a successful fetch. -/
def handleRatioE (resp : DexResponse) : Except String Reply := do
  let pairs := resp.pairs.getD []
  if pairs.isEmpty then
    pure (Reply.text "No pairs found in DexScreener response.")
  else do
    let ratios ← ratioListE pairs
    if ratios.isEmpty then
      pure (Reply.text "No valid pairs with ratio data found.")
    else do
      let sorted := ratios.insertionSort ratioLE
      pure (Reply.ratReport
        ("Found " ++ toString sorted.length ++
          " LP pairs ranked by ratio (24H Volume ÷ Liquidity)\n")
        (ratioRender sorted 0))

lemma floatE_ok_of_ne_bad {v : JVal} (h : v ≠ JVal.bad) :
    floatE v = Except.ok (floatOr0 v) := by
  cases v with
  | missing => rfl
  | num q => rfl
  | bad => exact absurd rfl h

lemma liquidity_num_of_mem_filtered {ps : List Pair} {p : Pair}
    (hp : p ∈ filteredPairs ps) :
    ∃ q : Rat, p.liquidity = JVal.num q ∧ 0 < q ∧ liqKey p = q := by
  have h := (List.mem_filter.mp hp).2
  have h0 : 0 < liqKey p := of_decide_eq_true h
  cases hv : p.liquidity with
  | missing => rw [liqKey, floatOr0, hv] at h0; exact absurd h0 (by norm_num [floatE])
  | bad => rw [liqKey, floatOr0, hv] at h0; exact absurd h0 (by norm_num [floatE])
  | num q =>
    refine ⟨q, rfl, ?_, ?_⟩
    · rwa [liqKey, floatOr0, hv] at h0
    · rw [liqKey, floatOr0, hv]; rfl

lemma mem_filtered_ne_bad {ps : List Pair} {p : Pair}
    (hp : p ∈ filteredPairs ps) : p.liquidity ≠ JVal.bad := by
  obtain ⟨q, hq, -, -⟩ := liquidity_num_of_mem_filtered hp
  simp [hq]

lemma volumeLoop_eq (s : Bool) :
    ∀ (l : List Pair), (∀ p ∈ l, p.liquidity ≠ JVal.bad) → ∀ (i : Nat),
      volumeLoop s l i =
        (specVolRender l i,
         (l.map volKey).sum,
         ((l.filter fun p => s && summaryPred p).map volKey).sum)
  | [], _, i => rfl
  | p :: rest, hl, i => by
    have hp : p.liquidity ≠ JVal.bad := hl p (List.mem_cons_self p rest)
    have hrest : ∀ x ∈ rest, x.liquidity ≠ JVal.bad :=
      fun x hx => hl x (List.mem_cons_of_mem p hx)
    have ih := volumeLoop_eq s rest hrest (i + 1)
    rw [volumeLoop, floatE_ok_of_ne_bad hp]
    simp only [ih, specVolRender, mkVolEntry, liqKey, volKey, List.map_cons,
      List.sum_cons, List.filter_cons, Prod.mk.injEq]
    refine ⟨trivial, by ring, ?_⟩
    by_cases hc : (s && summaryPred p) = true
    · rw [if_pos hc, if_pos hc, List.map_cons, List.sum_cons]
      simp only [volKey]
      ring
    · rw [if_neg hc, if_neg hc]

lemma handleVolume_report {ps : List Pair} (s : Bool)
    (hne : filteredPairs ps ≠ []) :
    handleVolume ⟨some ps⟩ s =
      Reply.volReport
        ("Found " ++ toString (pairsSorted ps).length ++ " active LP pairs\n")
        (specVolRender (pairsSorted ps) 0)
        (if s then
          some ((((pairsSorted ps).filter fun p => s && summaryPred p).map volKey).sum,
            ((pairsSorted ps).map volKey).sum
              - (((pairsSorted ps).filter fun p => s && summaryPred p).map volKey).sum)
        else none) := by
  have hps : ps ≠ [] := by
    intro h
    exact hne (by rw [h]; rfl)
  have hbad : ∀ p ∈ pairsSorted ps, p.liquidity ≠ JVal.bad := by
    intro p hp
    rw [pairsSorted] at hp
    exact mem_filtered_ne_bad ((List.perm_insertionSort volLE (filteredPairs ps)).mem_iff.mp hp)
  simp only [handleVolume, Option.getD_some]
  rw [if_neg (by simp [List.isEmpty_iff, hps]),
    if_neg (by simp [List.isEmpty_iff, hne]),
    volumeLoop_eq s (pairsSorted ps) hbad 0]

lemma handleRatio_report {ps : List Pair} (hne : ratioList ps ≠ []) :
    handleRatio ⟨some ps⟩ =
      Reply.ratReport
        ("Found " ++ toString (ratiosSorted ps).length ++
          " LP pairs ranked by ratio (24H Volume ÷ Liquidity)\n")
        (ratioRender (ratiosSorted ps) 0) := by
  have hps : ps ≠ [] := by
    intro h
    exact hne (by rw [h]; rfl)
  simp only [handleRatio, Option.getD_some]
  rw [if_neg (by simp [List.isEmpty_iff, hps]),
    if_neg (by simp [List.isEmpty_iff, hne])]

lemma pairsSorted_pairwise (ps : List Pair) :
    (pairsSorted ps).Pairwise fun a b => volKey b ≤ volKey a :=
  List.sorted_insertionSort volLE (filteredPairs ps)

lemma ratiosSorted_pairwise (ps : List Pair) :
    (ratiosSorted ps).Pairwise fun a b => b.1 ≤ a.1 :=
  List.sorted_insertionSort ratioLE (ratioList ps)

lemma filter_insertionSort_eq {α : Type} (r : α → α → Prop) [DecidableRel r]
    (q : α → Bool) (hq : ∀ a b, q a = true → q b = true → r a b) (l : List α) :
    (l.insertionSort r).filter q = l.filter q := by
  have hpair : (l.filter q).Pairwise r :=
    List.pairwise_of_forall_mem_list fun a ha b hb =>
      hq a b (List.mem_filter.mp ha).2 (List.mem_filter.mp hb).2
  have hq2 : (l.filter q).filter q = l.filter q := by
    rw [List.filter_filter]
    simp
  have hsub : List.Sublist (l.filter q) ((l.insertionSort r).filter q) := by
    have h1 : List.Sublist (l.filter q) (l.insertionSort r) :=
      List.sublist_insertionSort hpair (List.filter_sublist l)
    have h2 := h1.filter q
    rwa [hq2] at h2
  have hperm : List.Perm ((l.insertionSort r).filter q) (l.filter q) :=
    (List.perm_insertionSort r l).filter q
  exact (hsub.eq_of_length hperm.length_eq.symm).symm

lemma pairsSorted_filter_key (ps : List Pair) (v : Rat) :
    (pairsSorted ps).filter (fun p => volKey p == v)
      = ps.filter fun p => (volKey p == v) && decide (0 < liqKey p) := by
  rw [pairsSorted,
    filter_insertionSort_eq volLE _ (fun a b ha hb => by
      have ha2 : volKey a = v := by simpa using ha
      have hb2 : volKey b = v := by simpa using hb
      rw [volLE, ha2, hb2]),
    filteredPairs, List.filter_filter]

lemma ratiosSorted_filter_key (ps : List Pair) (v : Rat) :
    (ratiosSorted ps).filter (fun t => t.1 == v)
      = (ratioList ps).filter fun t => t.1 == v := by
  rw [ratiosSorted]
  exact filter_insertionSort_eq ratioLE _ (fun a b ha hb => by
    have ha2 : a.1 = v := by simpa using ha
    have hb2 : b.1 = v := by simpa using hb
    rw [ratioLE, ha2, hb2]) _

lemma specVolRender_map_vol : ∀ (l : List Pair) (i : Nat),
    (specVolRender l i).map VolEntry.volumeVal = l.map volKey
  | [], _ => rfl
  | p :: rest, i => by
    simp [specVolRender, mkVolEntry, specVolRender_map_vol rest (i + 1)]

lemma entrySummaryPred_mkVolEntry (i : Nat) (p : Pair) :
    entrySummaryPred (mkVolEntry i p) = summaryPred p := rfl

lemma mkVolEntry_volumeVal (i : Nat) (p : Pair) :
    (mkVolEntry i p).volumeVal = volKey p := rfl

lemma specVolRender_filter_summary : ∀ (l : List Pair) (i : Nat),
    ((specVolRender l i).filter entrySummaryPred).map VolEntry.volumeVal
      = (l.filter summaryPred).map volKey
  | [], _ => rfl
  | p :: rest, i => by
    have ih := specVolRender_filter_summary rest (i + 1)
    cases hc : summaryPred p with
    | true =>
      have he : entrySummaryPred (mkVolEntry i p) = true := by
        rw [entrySummaryPred_mkVolEntry]
        exact hc
      rw [specVolRender, List.filter_cons, List.filter_cons, if_pos he, if_pos hc,
        List.map_cons, List.map_cons, mkVolEntry_volumeVal, ih]
    | false =>
      have he : ¬entrySummaryPred (mkVolEntry i p) = true := by
        rw [entrySummaryPred_mkVolEntry, hc]
        exact Bool.false_ne_true
      rw [specVolRender, List.filter_cons, List.filter_cons, if_neg he,
        if_neg (by rw [hc]; exact Bool.false_ne_true), ih]

lemma specVolRender_length : ∀ (l : List Pair) (i : Nat),
    (specVolRender l i).length = l.length
  | [], _ => rfl
  | _ :: rest, i => by
    simp [specVolRender, specVolRender_length rest (i + 1)]

lemma specVolRender_get_icon : ∀ (l : List Pair) (k i : Nat)
    (h : i < (specVolRender l k).length),
    ((specVolRender l k).get ⟨i, h⟩).icon = rankIcon (k + i)
  | [], _, i, h => absurd h (by simp [specVolRender])
  | p :: rest, k, 0, _ => by simp [specVolRender, mkVolEntry]
  | p :: rest, k, i + 1, h => by
    have h2 : i < (specVolRender rest (k + 1)).length := by
      simpa [specVolRender] using h
    have ih := specVolRender_get_icon rest (k + 1) i h2
    have hk : k + 1 + i = k + (i + 1) := by omega
    simpa [specVolRender, List.get_cons_succ, hk] using ih

lemma ratioRender_length : ∀ (l : List (Rat × Rat × Rat × Pair)) (i : Nat),
    (ratioRender l i).length = l.length
  | [], _ => rfl
  | _ :: rest, i => by
    simp [ratioRender, ratioRender_length rest (i + 1)]

lemma ratioRender_get_icon : ∀ (l : List (Rat × Rat × Rat × Pair)) (k i : Nat)
    (h : i < (ratioRender l k).length),
    ((ratioRender l k).get ⟨i, h⟩).icon = rankIcon (k + i)
  | [], _, i, h => absurd h (by simp [ratioRender])
  | t :: rest, k, 0, _ => by simp [ratioRender]
  | t :: rest, k, i + 1, h => by
    have h2 : i < (ratioRender rest (k + 1)).length := by
      simpa [ratioRender] using h
    have ih := ratioRender_get_icon rest (k + 1) i h2
    have hk : k + 1 + i = k + (i + 1) := by omega
    simpa [ratioRender, List.get_cons_succ, hk] using ih

lemma rankIcon_eq (i : Nat) :
    rankIcon i =
      if i = 0 then "🥇" else if i = 1 then "🥈" else if i = 2 then "🥉" else "💰" := by
  simp [rankIcon]

lemma ratioList_eq_filter_map : ∀ ps : List Pair,
    ratioList ps = (ps.filter specRatioKeepB).map mkRatioTuple
  | [] => rfl
  | p :: rest => by
    have ih := ratioList_eq_filter_map rest
    cases hl : p.liquidity with
    | missing =>
      cases hv : p.volume <;>
        simp [ratioList, floatE, hl, hv, specRatioKeepB, ih, List.filter_cons]
    | bad =>
      cases hv : p.volume <;>
        simp [ratioList, floatE, hl, hv, specRatioKeepB, ih, List.filter_cons]
    | num lq =>
      cases hv : p.volume with
      | missing =>
        simp [ratioList, floatE, hl, hv, specRatioKeepB, ih, List.filter_cons]
      | bad =>
        simp [ratioList, floatE, hl, hv, specRatioKeepB, ih, List.filter_cons]
      | num vq =>
        by_cases hc : 0 < lq ∧ 0 < vq
        · simp [ratioList, floatE, hl, hv, specRatioKeepB, ih, List.filter_cons, hc,
            hc.1, hc.2, mkRatioTuple, volKey, liqKey, floatOr0]
        · simp [ratioList, floatE, hl, hv, specRatioKeepB, ih, List.filter_cons, hc]

lemma sum_filter_le_sum (q : Pair → Bool) :
    ∀ l : List Pair, (∀ p ∈ l, 0 ≤ volKey p) →
      ((l.filter q).map volKey).sum ≤ (l.map volKey).sum
  | [], _ => le_refl 0
  | p :: rest, h => by
    have h0 : 0 ≤ volKey p := h p (List.mem_cons_self p rest)
    have ih := sum_filter_le_sum q rest fun x hx => h x (List.mem_cons_of_mem p hx)
    rw [List.filter_cons]
    by_cases hc : q p = true
    · rw [if_pos hc]
      simp only [List.map_cons, List.sum_cons]
      exact add_le_add_left ih _
    · rw [if_neg hc]
      simp only [List.map_cons, List.sum_cons]
      calc ((rest.filter q).map volKey).sum ≤ (rest.map volKey).sum := ih
        _ ≤ volKey p + (rest.map volKey).sum := le_add_of_nonneg_left h0

lemma exceptPure_def {α : Type} (a : α) :
    (pure a : Except String α) = Except.ok a := rfl

lemma exceptBind_ok {α β : Type} (a : α) (f : α → Except String β) :
    (Except.ok a : Except String α) >>= f = f a := rfl

lemma exceptBind_error {α β : Type} (e : String) (f : α → Except String β) :
    (Except.error e : Except String α) >>= f = Except.error e := rfl

lemma exceptTryCatch_ok {α : Type} (a : α) (h : String → Except String α) :
    tryCatch (Except.ok a : Except String α) h = Except.ok a := rfl

lemma exceptTryCatch_error {α : Type} (e : String) (h : String → Except String α) :
    tryCatch (Except.error e : Except String α) h = h e := rfl

lemma filterPairsE_eq : ∀ l : List Pair,
    filterPairsE l = Except.ok (filteredPairs l)
  | [] => rfl
  | p :: rest => by
    have ih := filterPairsE_eq rest
    cases hl : p.liquidity with
    | bad =>
      simp [filterPairsE, floatE, hl, ih, filteredPairs, List.filter_cons,
        liqKey, floatOr0, exceptPure_def, exceptBind_ok, exceptTryCatch_ok,
        exceptTryCatch_error]
    | missing =>
      simp [filterPairsE, floatE, hl, ih, filteredPairs, List.filter_cons,
        liqKey, floatOr0, exceptPure_def, exceptBind_ok, exceptTryCatch_ok,
        exceptTryCatch_error]
    | num q =>
      by_cases hc : 0 < q <;>
        simp [filterPairsE, floatE, hl, ih, filteredPairs, List.filter_cons,
          liqKey, floatOr0, exceptPure_def, exceptBind_ok, exceptTryCatch_ok,
          exceptTryCatch_error, hc]

lemma volumeLoopE_eq (s : Bool) : ∀ (l : List Pair) (i : Nat),
    volumeLoopE s l i = Except.ok (volumeLoop s l i)
  | [], _ => rfl
  | p :: rest, i => by
    have ih := volumeLoopE_eq s rest (i + 1)
    cases hl : p.liquidity with
    | bad =>
      simp [volumeLoopE, volumeLoop, floatE, hl, ih, exceptPure_def,
        exceptBind_ok, exceptBind_error, exceptTryCatch_ok, exceptTryCatch_error]
    | missing =>
      cases hv : p.volume <;>
        simp [volumeLoopE, volumeLoop, floatE, hl, hv, ih, exceptPure_def,
          exceptBind_ok, exceptBind_error, exceptTryCatch_ok, exceptTryCatch_error,
          floatOr0]
    | num q =>
      cases hv : p.volume <;>
        simp [volumeLoopE, volumeLoop, floatE, hl, hv, ih, exceptPure_def,
          exceptBind_ok, exceptBind_error, exceptTryCatch_ok, exceptTryCatch_error,
          floatOr0]

lemma ratioListE_eq : ∀ l : List Pair,
    ratioListE l = Except.ok (ratioList l)
  | [] => rfl
  | p :: rest => by
    have ih := ratioListE_eq rest
    cases hl : p.liquidity with
    | bad =>
      cases hv : p.volume <;>
        simp [ratioListE, ratioList, floatE, hl, hv, ih, exceptPure_def,
          exceptBind_ok, exceptBind_error, exceptTryCatch_ok, exceptTryCatch_error,
          apply_ite]
    | missing =>
      cases hv : p.volume <;>
        simp [ratioListE, ratioList, floatE, hl, hv, ih, exceptPure_def,
          exceptBind_ok, exceptBind_error, exceptTryCatch_ok, exceptTryCatch_error,
          apply_ite]
    | num q =>
      cases hv : p.volume <;>
        simp [ratioListE, ratioList, floatE, hl, hv, ih, exceptPure_def,
          exceptBind_ok, exceptBind_error, exceptTryCatch_ok, exceptTryCatch_error,
          apply_ite]

lemma sortKeysE_ok_of_ne_bad : ∀ l : List Pair,
    (∀ p ∈ l, p.volume ≠ JVal.bad) → sortKeysE l = Except.ok (l.map volKey)
  | [], _ => rfl
  | p :: rest, h => by
    have hp : floatE p.volume = Except.ok (floatOr0 p.volume) :=
      floatE_ok_of_ne_bad (h p (List.mem_cons_self p rest))
    have ih := sortKeysE_ok_of_ne_bad rest fun x hx => h x (List.mem_cons_of_mem p hx)
    rw [sortKeysE, hp, exceptBind_ok, ih, exceptBind_ok, exceptPure_def]
    rfl

lemma handleVolume_agrees (resp : DexResponse) (s : Bool) (r : Reply)
    (h : handleVolumeE resp s = Except.ok r) :
    handleVolume resp s = r := by
  rw [handleVolumeE] at h
  rw [handleVolume]
  by_cases h1 : (resp.pairs.getD []).isEmpty
  · simp only [h1, if_true, exceptPure_def, Except.ok.injEq] at h
    simpa [h1] using h
  · simp only [h1, Bool.false_eq_true, if_false] at h ⊢
    rw [filterPairsE_eq, exceptBind_ok] at h
    by_cases h2 : (filteredPairs (resp.pairs.getD [])).isEmpty
    · simp only [h2, if_true, exceptPure_def, Except.ok.injEq] at h
      simpa [h2] using h
    · simp only [h2, Bool.false_eq_true, if_false] at h ⊢
      cases hk : sortKeysE (filteredPairs (resp.pairs.getD [])) with
      | error e =>
        rw [hk, exceptBind_error] at h
        exact absurd h (by simp)
      | ok ks =>
        rw [hk, exceptBind_ok, volumeLoopE_eq, exceptBind_ok, exceptPure_def,
          Except.ok.injEq] at h
        rw [pairsSorted]
        exact h

lemma handleRatioE_eq (resp : DexResponse) :
    handleRatioE resp = Except.ok (handleRatio resp) := by
  rw [handleRatioE, handleRatio]
  by_cases h1 : (resp.pairs.getD []).isEmpty
  · simp [h1, exceptPure_def]
  · simp only [h1, Bool.false_eq_true, if_false]
    rw [ratioListE_eq, exceptBind_ok]
    by_cases h2 : (ratioList (resp.pairs.getD [])).isEmpty
    · simp [h2, exceptPure_def]
    · simp only [h2, Bool.false_eq_true, if_false]
      rw [exceptPure_def, ratiosSorted]

/-- C1: counterevidence.  The sort-key parse of line 109 has no
`try`/`except`: on a pair whose liquidity parses positive but whose
`volume.h24` is truthy and unparseable, the liquidity filter keeps the
pair (so the claim's premise holds), yet the exception-explicit
`handle_volume` aborts with the parse error instead of rendering the pair
with volume treated as `0`.  The loop re-parse of lines 126-129
zero-defaults the very same field, so the uncaught sort key is a slip in
the code, not in the claim. -/
theorem volume_sort_key_uncaught :
    filteredPairs [(⟨some "A", some "B", some "dex", JVal.num 5,
        JVal.bad⟩ : Pair)] ≠ []
    ∧ handleVolumeE ⟨some [⟨some "A", some "B", some "dex", JVal.num 5,
        JVal.bad⟩]⟩ true
      = Except.error "could not convert string to float"
    ∧ ∀ r : Reply, handleVolumeE ⟨some [⟨some "A", some "B", some "dex",
        JVal.num 5, JVal.bad⟩]⟩ true ≠ Except.ok r :=
  ⟨by decide, rfl, fun _ h => Except.noConfusion h⟩

/-- C2: for every fetched pairs list, the ratio report keeps exactly the
pairs whose liquidity and volume both parse and are positive (in input
order), renders the stably sorted tuples, the sorted ratios are
non-increasing, and tuples of equal ratio keep their collection order. -/
theorem ratioReport_membership_sorted_stable (ps : List Pair) :
    ratioList ps = (ps.filter specRatioKeepB).map mkRatioTuple
    ∧ ((ratiosSorted ps).map fun t => t.1).Pairwise (fun a b => b ≤ a)
    ∧ (∀ v : Rat, (ratiosSorted ps).filter (fun t => t.1 == v)
        = (ratioList ps).filter fun t => t.1 == v)
    ∧ (handleRatio ⟨some ps⟩).ratEntries = ratioRender (ratiosSorted ps) 0 := by
  refine ⟨ratioList_eq_filter_map ps, ?_, ratiosSorted_filter_key ps, ?_⟩
  · exact List.pairwise_map.mpr (ratiosSorted_pairwise ps)
  · by_cases hne : ratioList ps = []
    · have h1 : ratiosSorted ps = [] := by
        rw [ratiosSorted, hne]
        rfl
      rw [h1]
      by_cases hps : ps = []
      · subst hps
        rfl
      · simp [handleRatio, List.isEmpty_iff, hps, hne, Reply.ratEntries, ratioRender]
    · rw [handleRatio_report hne]
      rfl

/-- C3: the liquidity filter keeps exactly the pairs whose `liquidity.usd`
parses to a value `> 0` (missing, null, or unparseable fields count as `0`
and are excluded), and when no pair survives the filter the reply is the
no-valid-LP-pairs message. -/
theorem volume_liquidity_filter (ps : List Pair) (s : Bool) (hps : ps ≠ []) :
    filteredPairs ps = ps.filter specLiquidOkB
    ∧ (filteredPairs ps = [] →
        handleVolume ⟨some ps⟩ s
          = Reply.text "No valid LP pairs with liquidity found.") := by
  constructor
  · rw [filteredPairs]
    apply List.filter_congr
    intro p _
    cases hv : p.liquidity <;> simp [specLiquidOkB, liqKey, floatOr0, floatE, hv]
  · intro hemp
    simp [handleVolume, List.isEmpty_iff, hps, hemp]

/-- Witness for C3 at a one-pair input with unparseable liquidity. -/
theorem volume_liquidity_filter_witness :
    ([(⟨some "X", some "Y", some "z", JVal.bad, JVal.num 7⟩ : Pair)] ≠ [])
    ∧ (filteredPairs [(⟨some "X", some "Y", some "z", JVal.bad, JVal.num 7⟩ : Pair)]
        = [(⟨some "X", some "Y", some "z", JVal.bad, JVal.num 7⟩ : Pair)].filter
            specLiquidOkB
      ∧ (filteredPairs [(⟨some "X", some "Y", some "z", JVal.bad,
            JVal.num 7⟩ : Pair)] = [] →
          handleVolume ⟨some [⟨some "X", some "Y", some "z", JVal.bad,
              JVal.num 7⟩]⟩ true
            = Reply.text "No valid LP pairs with liquidity found.")) :=
  ⟨by decide,
    volume_liquidity_filter [⟨some "X", some "Y", some "z", JVal.bad, JVal.num 7⟩]
      true (by decide)⟩

/-- C4: counterevidence and the surviving half.  Generating the volume
report aborts with a parse exception on a malformed `volume.h24` field
(the sort-key `float` of line 109 is uncaught), refuting the claim for
the volume report, while the ratio report indeed never aborts: its single
`try` covers both parses, so the exception-explicit `handle_ratio` always
returns `Except.ok` of the pure report. -/
theorem volume_report_parse_abort :
    handleVolumeE ⟨some [⟨some "A", some "B", some "dex", JVal.num 5,
        JVal.bad⟩]⟩ false
      = Except.error "could not convert string to float"
    ∧ ∀ resp : DexResponse, handleRatioE resp = Except.ok (handleRatio resp) :=
  ⟨rfl, fun resp => handleRatioE_eq resp⟩

/-- C5: with the summary enabled, the summary subtotal equals the sum of
24-hour volume over exactly the rendered entries whose symbol set is
case-insensitively `{SOL, DRIP}` on exchange `raydium`, and the
all-others figure is the total rendered volume minus that subtotal. -/
theorem volume_summary_subtotal (ps : List Pair)
    (hne : filteredPairs ps ≠ []) :
    (handleVolume ⟨some ps⟩ true).volSummary =
      some
        ((((handleVolume ⟨some ps⟩ true).volEntries.filter entrySummaryPred).map
            VolEntry.volumeVal).sum,
          ((handleVolume ⟨some ps⟩ true).volEntries.map VolEntry.volumeVal).sum
            - (((handleVolume ⟨some ps⟩ true).volEntries.filter entrySummaryPred).map
                VolEntry.volumeVal).sum) := by
  rw [handleVolume_report true hne]
  simp only [Reply.volSummary, Reply.volEntries, if_true,
    specVolRender_filter_summary, specVolRender_map_vol, Bool.true_and]

/-- Witness for C5 at a concrete two-pair input. -/
theorem volume_summary_subtotal_witness :
    filteredPairs [(⟨some "DRIP", some "SOL", some "raydium", JVal.num 10000,
        JVal.num 5000⟩ : Pair),
      ⟨some "DRIP", some "USDC", some "orca", JVal.num 2000, JVal.num 8000⟩] ≠ []
    ∧ (handleVolume ⟨some [⟨some "DRIP", some "SOL", some "raydium",
          JVal.num 10000, JVal.num 5000⟩,
        ⟨some "DRIP", some "USDC", some "orca", JVal.num 2000,
          JVal.num 8000⟩]⟩ true).volSummary =
      some
        ((((handleVolume ⟨some [⟨some "DRIP", some "SOL", some "raydium",
              JVal.num 10000, JVal.num 5000⟩,
            ⟨some "DRIP", some "USDC", some "orca", JVal.num 2000,
              JVal.num 8000⟩]⟩ true).volEntries.filter entrySummaryPred).map
            VolEntry.volumeVal).sum,
          ((handleVolume ⟨some [⟨some "DRIP", some "SOL", some "raydium",
              JVal.num 10000, JVal.num 5000⟩,
            ⟨some "DRIP", some "USDC", some "orca", JVal.num 2000,
              JVal.num 8000⟩]⟩ true).volEntries.map VolEntry.volumeVal).sum
            - (((handleVolume ⟨some [⟨some "DRIP", some "SOL", some "raydium",
                  JVal.num 10000, JVal.num 5000⟩,
                ⟨some "DRIP", some "USDC", some "orca", JVal.num 2000,
                  JVal.num 8000⟩]⟩ true).volEntries.filter entrySummaryPred).map
                VolEntry.volumeVal).sum) :=
  ⟨by decide,
    volume_summary_subtotal
      [⟨some "DRIP", some "SOL", some "raydium", JVal.num 10000, JVal.num 5000⟩,
        ⟨some "DRIP", some "USDC", some "orca", JVal.num 2000, JVal.num 8000⟩]
      (by decide)⟩

/-- C7: a fetched response whose `pairs` field is absent, null, or the
empty array makes both handlers reply with exactly the no-pairs message. -/
theorem empty_pairs_message (resp : DexResponse) (s : Bool)
    (h : resp.pairs = none ∨ resp.pairs = some []) :
    handleVolume resp s = Reply.text "No pairs found in DexScreener response."
    ∧ handleRatio resp = Reply.text "No pairs found in DexScreener response." := by
  rcases h with h | h <;> simp [handleVolume, handleRatio, h]

/-- Witness for C7 at the absent-`pairs` response. -/
theorem empty_pairs_message_witness :
    ((⟨none⟩ : DexResponse).pairs = none ∨ (⟨none⟩ : DexResponse).pairs = some [])
    ∧ handleVolume ⟨none⟩ true = Reply.text "No pairs found in DexScreener response."
    ∧ handleRatio ⟨none⟩ = Reply.text "No pairs found in DexScreener response." :=
  ⟨Or.inl rfl, empty_pairs_message ⟨none⟩ true (Or.inl rfl)⟩

/-- C8: both other-token commands with an empty argument list reply with
exactly the usage message, and the reply does not depend on the fetcher
(no network call can influence it). -/
theorem other_commands_usage_no_fetch
    (f g : String → Except String DexResponse) :
    volumeOtherCmd f [] = Reply.text "Usage: /volume_other <TOKEN_CA>"
    ∧ ratioOtherCmd f [] = Reply.text "Usage: /ratio_other <TOKEN_CA>"
    ∧ volumeOtherCmd f [] = volumeOtherCmd g []
    ∧ ratioOtherCmd f [] = ratioOtherCmd g [] :=
  ⟨rfl, rfl, rfl, rfl⟩

lemma volEntries_get_icon {l₁ : List VolEntry} {l : List Pair}
    (h : l₁ = specVolRender l 0) (i : Nat) (hi : i < l₁.length) :
    (l₁.get ⟨i, hi⟩).icon = rankIcon i := by
  subst h
  simpa using specVolRender_get_icon l 0 i hi

lemma ratEntries_get_icon {l₁ : List RatEntry} {l : List (Rat × Rat × Rat × Pair)}
    (h : l₁ = ratioRender l 0) (j : Nat) (hj : j < l₁.length) :
    (l₁.get ⟨j, hj⟩).icon = rankIcon j := by
  subst h
  simpa using ratioRender_get_icon l 0 j hj

lemma volEntries_empty_of_filter_empty {ps : List Pair} (s : Bool)
    (hne : filteredPairs ps = []) :
    (handleVolume ⟨some ps⟩ s).volEntries = [] := by
  by_cases hps : ps = []
  · subst hps
    rfl
  · simp [handleVolume, List.isEmpty_iff, hps, hne, Reply.volEntries]

lemma volSummary_none_of_filter_empty {ps : List Pair} (s : Bool)
    (hne : filteredPairs ps = []) :
    (handleVolume ⟨some ps⟩ s).volSummary = none := by
  by_cases hps : ps = []
  · subst hps
    rfl
  · simp [handleVolume, List.isEmpty_iff, hps, hne, Reply.volSummary]

lemma ratEntries_eq_render (ps : List Pair) :
    (handleRatio ⟨some ps⟩).ratEntries = ratioRender (ratiosSorted ps) 0 := by
  by_cases hne : ratioList ps = []
  · have h1 : ratiosSorted ps = [] := by
      rw [ratiosSorted, hne]
      rfl
    rw [h1]
    by_cases hps : ps = []
    · subst hps
      rfl
    · simp [handleRatio, List.isEmpty_iff, hps, hne, Reply.ratEntries, ratioRender]
  · rw [handleRatio_report hne]
    rfl

/-- C6: in each report the icon of a rendered entry depends only on its
position in the sorted output — positions 0, 1, 2 get the three medals and
every later position gets the money bag, whatever the metric values.  The
two reports are quantified over independent inputs and each conclusion
carries only its own bound, so either part applies even when the other
report renders nothing. -/
theorem rank_icons_positional (ps qs : List Pair) (s : Bool) (i j : Nat) :
    (∀ h1 : i < (handleVolume ⟨some ps⟩ s).volEntries.length,
      ((handleVolume ⟨some ps⟩ s).volEntries.get ⟨i, h1⟩).icon
        = (if i = 0 then "🥇" else if i = 1 then "🥈" else if i = 2 then "🥉"
            else "💰"))
    ∧ (∀ h2 : j < (handleRatio ⟨some qs⟩).ratEntries.length,
      ((handleRatio ⟨some qs⟩).ratEntries.get ⟨j, h2⟩).icon
        = (if j = 0 then "🥇" else if j = 1 then "🥈" else if j = 2 then "🥉"
            else "💰")) := by
  constructor
  · intro h1
    by_cases hne : filteredPairs ps = []
    · exfalso
      rw [volEntries_empty_of_filter_empty s hne] at h1
      exact absurd h1 (by simp)
    · have hent : (handleVolume ⟨some ps⟩ s).volEntries
          = specVolRender (pairsSorted ps) 0 := by
        rw [handleVolume_report s hne]
        rfl
      rw [volEntries_get_icon hent i h1, rankIcon_eq]
  · intro h2
    rw [ratEntries_get_icon (ratEntries_eq_render qs) j h2, rankIcon_eq]

/-- Witness for C6: the volume side at an input whose ratio report is
empty (positive liquidity, zero volume), the ratio side at an input that
does render — position 0 in each. -/
theorem rank_icons_positional_witness :
    0 < (handleVolume ⟨some [⟨some "DRIP", some "SOL", some "raydium",
        JVal.num 10000, JVal.num 0⟩]⟩ true).volEntries.length
    ∧ (handleRatio ⟨some [⟨some "DRIP", some "SOL", some "raydium",
        JVal.num 10000, JVal.num 0⟩]⟩).ratEntries.length = 0
    ∧ 0 < (handleRatio ⟨some [⟨some "DRIP", some "USDC", some "orca",
        JVal.num 2000, JVal.num 8000⟩]⟩).ratEntries.length
    ∧ (∀ h1 : 0 < (handleVolume ⟨some [⟨some "DRIP", some "SOL", some "raydium",
          JVal.num 10000, JVal.num 0⟩]⟩ true).volEntries.length,
        ((handleVolume ⟨some [⟨some "DRIP", some "SOL", some "raydium",
            JVal.num 10000, JVal.num 0⟩]⟩ true).volEntries.get ⟨0, h1⟩).icon
          = (if (0 : Nat) = 0 then "🥇" else if (0 : Nat) = 1 then "🥈"
              else if (0 : Nat) = 2 then "🥉" else "💰"))
    ∧ (∀ h2 : 0 < (handleRatio ⟨some [⟨some "DRIP", some "USDC", some "orca",
          JVal.num 2000, JVal.num 8000⟩]⟩).ratEntries.length,
        ((handleRatio ⟨some [⟨some "DRIP", some "USDC", some "orca",
            JVal.num 2000, JVal.num 8000⟩]⟩).ratEntries.get ⟨0, h2⟩).icon
          = (if (0 : Nat) = 0 then "🥇" else if (0 : Nat) = 1 then "🥈"
              else if (0 : Nat) = 2 then "🥉" else "💰")) :=
  ⟨by decide, by decide, by decide,
    (rank_icons_positional
      [⟨some "DRIP", some "SOL", some "raydium", JVal.num 10000, JVal.num 0⟩]
      [⟨some "DRIP", some "USDC", some "orca", JVal.num 2000, JVal.num 8000⟩]
      true 0 0).1,
    (rank_icons_positional
      [⟨some "DRIP", some "SOL", some "raydium", JVal.num 10000, JVal.num 0⟩]
      [⟨some "DRIP", some "USDC", some "orca", JVal.num 2000, JVal.num 8000⟩]
      true 0 0).2⟩

/-- C9: over the sorted filtered pairs, the rendering loop of the volume
report skips nothing — it renders exactly one block per pair (the
liquidity re-parse `continue` is unreachable because every filtered pair's
liquidity already parsed during filtering) and its running total is the
sum of 24-hour volume over exactly the filtered pairs. -/
theorem volume_loop_renders_all_filtered (ps : List Pair) (s : Bool) :
    (volumeLoop s (pairsSorted ps) 0).1 = specVolRender (pairsSorted ps) 0
    ∧ (volumeLoop s (pairsSorted ps) 0).1.length = (pairsSorted ps).length
    ∧ (volumeLoop s (pairsSorted ps) 0).2.1 = ((filteredPairs ps).map volKey).sum := by
  have hbad : ∀ p ∈ pairsSorted ps, p.liquidity ≠ JVal.bad := by
    intro p hp
    rw [pairsSorted] at hp
    exact mem_filtered_ne_bad
      ((List.perm_insertionSort volLE (filteredPairs ps)).mem_iff.mp hp)
  have h := volumeLoop_eq s (pairsSorted ps) hbad 0
  rw [h]
  refine ⟨rfl, by simp [specVolRender_length], ?_⟩
  have hperm : List.Perm (pairsSorted ps) (filteredPairs ps) := by
    rw [pairsSorted]
    exact List.perm_insertionSort volLE (filteredPairs ps)
  simpa using (hperm.map volKey).sum_eq

/-- C10: if every rendered entry's parsed 24-hour volume is nonnegative,
the summary subtotal is at most the total, so the all-others figure is
nonnegative. -/
theorem summary_all_others_nonneg (ps : List Pair)
    (hnn : ∀ e ∈ (handleVolume ⟨some ps⟩ true).volEntries, 0 ≤ e.volumeVal) :
    ∀ x ∈ (handleVolume ⟨some ps⟩ true).volSummary, x.1 ≤ x.1 + x.2 ∧ 0 ≤ x.2 := by
  intro x hx
  by_cases hne : filteredPairs ps = []
  · rw [volSummary_none_of_filter_empty true hne] at hx
    exact absurd hx (by simp)
  · have hent : (handleVolume ⟨some ps⟩ true).volEntries
        = specVolRender (pairsSorted ps) 0 := by
      rw [handleVolume_report true hne]
      rfl
    have hkey : ∀ p ∈ pairsSorted ps, 0 ≤ volKey p := by
      intro p hp
      have hmem : volKey p ∈ (pairsSorted ps).map volKey :=
        List.mem_map_of_mem volKey hp
      rw [← specVolRender_map_vol (pairsSorted ps) 0, ← hent] at hmem
      obtain ⟨e, he, hev⟩ := List.mem_map.mp hmem
      exact hev ▸ hnn e he
    rw [handleVolume_report true hne] at hx
    simp only [Reply.volSummary, if_true, Option.mem_def, Option.some_inj] at hx
    have hST :
        (((pairsSorted ps).filter fun p => true && summaryPred p).map volKey).sum
          ≤ ((pairsSorted ps).map volKey).sum :=
      sum_filter_le_sum _ (pairsSorted ps) hkey
    rw [← hx]
    constructor
    · have heq :
          (((pairsSorted ps).filter fun p => true && summaryPred p).map volKey).sum
            + (((pairsSorted ps).map volKey).sum
              - (((pairsSorted ps).filter fun p => true && summaryPred p).map
                  volKey).sum)
          = ((pairsSorted ps).map volKey).sum := by
        ring
      simpa [heq] using hST
    · simpa using hST

/-- Witness for C10 at a concrete one-pair input. -/
theorem summary_all_others_nonneg_witness :
    (∀ e ∈ (handleVolume ⟨some [⟨some "DRIP", some "SOL", some "raydium",
        JVal.num 10000, JVal.num 5000⟩]⟩ true).volEntries, 0 ≤ e.volumeVal)
    ∧ ∀ x ∈ (handleVolume ⟨some [⟨some "DRIP", some "SOL", some "raydium",
        JVal.num 10000, JVal.num 5000⟩]⟩ true).volSummary,
        x.1 ≤ x.1 + x.2 ∧ 0 ≤ x.2 :=
  ⟨by decide,
    summary_all_others_nonneg
      [⟨some "DRIP", some "SOL", some "raydium", JVal.num 10000, JVal.num 5000⟩]
      (by decide)⟩
